import Mathlib

/-!
Verification of the per-sensor scaling/calibration core of the
`lego-linux-drivers` repository (LEGO MINDSTORMS NXT/EV3 sensor drivers).

The development shallowly embeds the value-scaling functions and the
command/state-machine callbacks of the drivers:

* `ms_8ch_servo_get_rate` / `ms_8ch_servo_set_rate` — the mindsensors.com
  8-channel servo controller rate/period converter (nxt_i2c_sensor_defs.c,
  lines 53-82 of the first source document).
* `ms_imu_tilt2deg` / `ms_imu_scale` / `ms_imu_send_cmd_post_cb` — the
  mindsensors.com Absolute-IMU tilt lookup scaler and gyro full-scale
  command callback (lines 144-194).
* `mi_xg1300l_scale` / `mi_xg1300l_send_cmd_post_cb` — the Microinfinity
  CruizCore XG1300L accelerometer rescaler (lines 196-229).
* `ev3_analog_sensor_set_mode` — the EV3 analog sensor mode setter, in both
  the legacy (msensor-class) and the current (lego-sensor-class) versions.

Machine integers are modelled as `Nat`/`Int`; ram byte buffers as
`List (Fin 256)`.  C integer division of non-negative values agrees with
`Nat` division and with `Int` euclidean division on non-negative operands,
which is how it is used below.
-/

/-- Wire data type of one sensor value (`enum lego_sensor_data_type`).
Only the constructors used by the sensors under study are included; `u8`
is the zero-initialised default for mode descriptors that do not declare
a data type. -/
inductive LegoSensorDataType where
  | u8
  | s8
  | u16
  | s16
  deriving DecidableEq, Repr

/-- Unsigned byte read `buf[i]` of a raw sample buffer (out-of-range reads
never occur on real hardware buffers; they default to 0 here). -/
def u8At (buf : List (Fin 256)) (i : Nat) : Nat :=
  (buf.getD i 0).val

/-- Little-endian unsigned 16-bit read `((u16 *)buf)[i]`. -/
def u16At (buf : List (Fin 256)) (i : Nat) : Nat :=
  u8At buf (2 * i) + 256 * u8At buf (2 * i + 1)

/-- Little-endian signed 16-bit read `((s16 *)buf)[i]`, as used by
`mi_xg1300l_scale` (`s16 *raw_as_s16 = (s16 *)mode_info->raw_data`). -/
def s16At (buf : List (Fin 256)) (i : Nat) : Int :=
  let w := u16At buf i
  if w < 32768 then (w : Int) else (w : Int) - 65536

/-- Signed byte view of an unsigned byte value. -/
def s8Val (b : Nat) : Int :=
  if b < 128 then (b : Int) else (b : Int) - 256

/-- Shallow embedding of `struct lego_sensor_mode_info`: one mode descriptor
of a sensor (name, declared channel count, wire data type, unit string,
decimal places, raw/SI scaling ranges, and the raw sample buffer).
The optional custom scale function pointer is not a field here; which scale
function a mode uses is recorded by the sensor definitions themselves. -/
structure ModeInfo where
  name : String
  dataSets : Nat
  dataType : LegoSensorDataType
  units : String
  decimals : Nat
  rawMin : Int
  rawMax : Int
  siMin : Int
  siMax : Int
  rawData : List (Fin 256)
  deriving DecidableEq, Repr

/-- Raw sample value of channel `i` decoded per the declared data type. -/
def rawDataValue (mi : ModeInfo) (i : Nat) : Int :=
  match mi.dataType with
  | .u8 => (u8At mi.rawData i : Int)
  | .s8 => s8Val (u8At mi.rawData i)
  | .u16 => (u16At mi.rawData i : Int)
  | .s16 => s16At mi.rawData i

/-- Linux `EINVAL` errno value; the kernel returns `-EINVAL` (= -22). -/
def EINVAL : Int := 22

/- ### mindsensors.com 8-channel servo controller (nxt_i2c_sensor_defs.c) -/

/-- Register read by `ms_8ch_servo_get_rate`:
`i2c_smbus_read_word_data(client, 0x52 + servo->id)`. -/
def ms_8ch_servo_get_rate_reg (id : Nat) : Nat := 0x52 + id

/-- Register written by `ms_8ch_servo_set_rate`:
`i2c_smbus_write_word_data(client, 0x52 + servo->id * 2, scaled)`. -/
def ms_8ch_servo_set_rate_reg (id : Nat) : Nat := 0x52 + id * 2

/-- Embedding of `ms_8ch_servo_get_rate`.  The argument is the result of the
`i2c_smbus_read_word_data` bus read (a negative errno, or the period word
0..65535); the function body after the read is a pure computation:
`if (ret < 0) return ret; if (ret == 0) return 0; return 24000 / ret;`. -/
def ms_8ch_servo_get_rate (ret : Int) : Int :=
  if ret < 0 then ret
  else if ret = 0 then 0
  else 24000 / ret

/-- Embedding of the `scaled` period computed by `ms_8ch_servo_set_rate`
from the requested rate `value` (an `unsigned`):
`if (value >= 24000) scaled = 1; else if (value < 94) scaled = 0;
else scaled = 24000 / value;` — this value is then written to the period
register. -/
def ms_8ch_servo_set_rate (value : Nat) : Nat :=
  if 24000 ≤ value then 1
  else if value < 94 then 0
  else 24000 / value

/-- Requested rate converted to a period by `ms_8ch_servo_set_rate` and read
back through the computation of `ms_8ch_servo_get_rate`. -/
def servoRateRoundTrip (value : Nat) : Int :=
  ms_8ch_servo_get_rate (ms_8ch_servo_set_rate value)

/-- C3: the servo rate converter with K = 24000 maps a hardware period of 0
to rate 0, and maps every period p > 0 to K / p (integer division), so that
rate(p) * p approximates K within one rounding step:
K - p < rate(p) * p ≤ K. -/
theorem ms_8ch_servo_get_rate_spec (p : Int) :
    ms_8ch_servo_get_rate 0 = 0 ∧
    (0 < p →
      ms_8ch_servo_get_rate p = 24000 / p ∧
      24000 - p < 24000 / p * p ∧
      24000 / p * p ≤ 24000) := by
  constructor
  · rfl
  · intro hp
    have hne : p ≠ 0 := ne_of_gt hp
    have hnlt : ¬ p < 0 := not_lt.mpr (le_of_lt hp)
    constructor
    · simp [ms_8ch_servo_get_rate, hnlt, hne]
    · have hkey : p * (24000 / p) + 24000 % p = 24000 := Int.ediv_add_emod 24000 p
      have hnn : 0 ≤ 24000 % p := Int.emod_nonneg 24000 hne
      have hlt : 24000 % p < p := Int.emod_lt_of_pos 24000 hp
      constructor
      · rw [mul_comm]; linarith
      · rw [mul_comm]; linarith

/-- Witness for `ms_8ch_servo_get_rate_spec` at the concrete period 7. -/
theorem ms_8ch_servo_get_rate_spec_witness :
    ms_8ch_servo_get_rate 7 = 24000 / 7 ∧
    (24000 : Int) - 7 < 24000 / 7 * 7 ∧ 24000 / 7 * 7 ≤ (24000 : Int) :=
  (ms_8ch_servo_get_rate_spec 7).2 (by decide)

/-- C7: a bus read failure (negative return from
`i2c_smbus_read_word_data`) is returned by `ms_8ch_servo_get_rate`
unchanged — no division or other arithmetic is applied to it.  The
embedding is a pure function of the read result, reflecting that the C
function mutates no driver state on this path. -/
theorem ms_8ch_servo_get_rate_propagates_errors (e : Int) (he : e < 0) :
    ms_8ch_servo_get_rate e = e := by
  simp [ms_8ch_servo_get_rate, he]

/-- Witness for `ms_8ch_servo_get_rate_propagates_errors` at errno -5 (-EIO). -/
theorem ms_8ch_servo_get_rate_propagates_errors_witness :
    ms_8ch_servo_get_rate (-5) = -5 :=
  ms_8ch_servo_get_rate_propagates_errors (-5) (by decide)

/-- C10: for every servo channel id in [0, 7], `ms_8ch_servo_set_rate`
writes the period to register 0x52 + 2*id while `ms_8ch_servo_get_rate`
reads it from register 0x52 + id; the two addresses coincide exactly for
id = 0, so a rate written on a channel id > 0 is not read back from the
same register. -/
theorem ms_8ch_servo_rate_reg_mismatch (id : Nat) (_hid : id ≤ 7) :
    ms_8ch_servo_set_rate_reg id = ms_8ch_servo_get_rate_reg id ↔ id = 0 := by
  unfold ms_8ch_servo_set_rate_reg ms_8ch_servo_get_rate_reg
  omega

/-- Witness for `ms_8ch_servo_rate_reg_mismatch`: on channel 3 the write
register (0x58) differs from the read register (0x55). -/
theorem ms_8ch_servo_rate_reg_mismatch_witness :
    ms_8ch_servo_set_rate_reg 3 ≠ ms_8ch_servo_get_rate_reg 3 :=
  fun h => absurd ((ms_8ch_servo_rate_reg_mismatch 3 (by decide)).mp h) (by decide)

/- ### mindsensors.com Absolute-IMU (nxt_i2c_sensor_defs.c) -/

/-- Embedding of the lookup table `ms_imu_tilt2deg` for
rad2deg(asin(x / 128)), used to convert a raw tilt byte to degrees. -/
def ms_imu_tilt2deg : List Nat := [
  0, 0, 1, 1, 2, 2, 3, 3, 4, 4, 4, 5, 5, 6, 6, 7, 7, 8, 8, 9,
  9, 9, 10, 10, 11, 11, 12, 12, 13, 13, 14, 14, 14, 15, 15, 16, 16, 17, 17, 18,
  18, 19, 19, 20, 20, 21, 21, 22, 22, 23, 23, 23, 24, 24, 25, 25, 26, 26, 27, 27,
  28, 28, 29, 29, 30, 31, 31, 32, 32, 33, 33, 34, 34, 35, 35, 36, 36, 37, 38, 38,
  39, 39, 40, 40, 41, 42, 42, 43, 43, 44, 45, 45, 46, 47, 47, 48, 49, 49, 50, 51,
  51, 52, 53, 54, 54, 55, 56, 57, 58, 58, 59, 60, 61, 62, 63, 64, 65, 66, 67, 68,
  70, 71, 72, 74, 76, 78, 80, 83, 90, 97, 100, 102, 104, 106, 108, 109, 110, 112, 113, 114,
  115, 116, 117, 118, 119, 120, 121, 122, 122, 123, 124, 125, 126, 126, 127, 128, 129, 129, 130, 131,
  131, 132, 133, 133, 134, 135, 135, 136, 137, 137, 138, 138, 139, 140, 140, 141, 141, 142, 142, 143,
  144, 144, 145, 145, 146, 146, 147, 147, 148, 148, 149, 149, 150, 151, 151, 152, 152, 153, 153, 154,
  154, 155, 155, 156, 156, 157, 157, 157, 158, 158, 159, 159, 160, 160, 161, 161, 162, 162, 163, 163,
  164, 164, 165, 165, 166, 166, 166, 167, 167, 168, 168, 169, 169, 170, 170, 171, 171, 171, 172, 172,
  173, 173, 174, 174, 175, 175, 176, 176, 176, 177, 177, 178, 178, 179, 179, 180]

/-- Embedding of `ms_imu_scale`: writes
`ms_imu_tilt2deg[mode_info->raw_data[index]]` to `*value` and returns 0.
The result pair is (scaled value, return code). -/
def ms_imu_scale (mi : ModeInfo) (index : Nat) : Int × Int :=
  ((ms_imu_tilt2deg.getD (u8At mi.rawData index) 0 : Int), 0)

set_option maxRecDepth 4000 in
/-- C2: the tilt-to-angle lookup table has exactly 256 entries, is
monotonically non-decreasing (sorted, i.e. pairwise ≤ in list order), every
entry lies in [0, 180] (entries are naturals, so the lower bound is
inherent), and for every raw byte the tilt scale function returns the table
entry indexed directly by that byte and succeeds with return code 0. -/
theorem ms_imu_tilt2deg_table_spec :
    ms_imu_tilt2deg.length = 256 ∧
    List.Sorted (· ≤ ·) ms_imu_tilt2deg ∧
    (∀ v ∈ ms_imu_tilt2deg, v ≤ 180) ∧
    (∀ (mi : ModeInfo) (index : Nat),
      ms_imu_scale mi index =
        ((ms_imu_tilt2deg.getD (u8At mi.rawData index) 0 : Int), 0)) := by
  refine ⟨rfl, by decide, by decide, fun mi index => rfl⟩

/-- Witness for `ms_imu_tilt2deg_table_spec`: entry 97 is in the table and
bounded by 180, and the scaler applied to a concrete one-byte buffer holding
128 yields 90 degrees with return code 0. -/
theorem ms_imu_tilt2deg_table_spec_witness :
    (97 : Nat) ≤ 180 ∧
    ms_imu_scale
      { name := "TILT", dataSets := 3, dataType := .u8, units := "deg",
        decimals := 0, rawMin := 0, rawMax := 0, siMin := 0, siMax := 0,
        rawData := [(128 : Fin 256)] } 0 = (90, 0) :=
  ⟨ms_imu_tilt2deg_table_spec.2.2.1 97 (by decide),
   (ms_imu_tilt2deg_table_spec.2.2.2 _ 0).trans (by decide)⟩

/-- C8 counterexample: the rate -> period -> rate round trip does not yield
the nearest achievable rate.  At the requested rate 6999 the round trip
yields 8000 (period 3), while 6000 (period 4) is also an achievable
`ms_8ch_servo_get_rate` result and is strictly nearer to 6999. -/
theorem ms_8ch_servo_rate_round_trip_not_nearest :
    servoRateRoundTrip 6999 = 8000 ∧
    ms_8ch_servo_get_rate 4 = 6000 ∧
    (8000 : Int) - 6999 > 6999 - 6000 := by
  refine ⟨by decide, by decide, by decide⟩

/-- C8 (amended): `ms_8ch_servo_set_rate` clamps the requested rate into the
valid range before inversion (r ≥ 24000 yields period 1, r < 94 yields
period 0, otherwise period 24000 / r), and the round trip rate -> period ->
rate yields, for a clamped-in-range request, the least achievable rate that
is at least r (within one period-quantization step above r); r ≥ 24000 round
trips to the maximum achievable rate 24000, and r < 94 to 0. -/
theorem ms_8ch_servo_rate_round_trip_spec (r : Nat) :
    (24000 ≤ r → servoRateRoundTrip r = 24000) ∧
    (r < 94 → servoRateRoundTrip r = 0) ∧
    (94 ≤ r → r < 24000 →
      ms_8ch_servo_set_rate r = 24000 / r ∧
      servoRateRoundTrip r = ((24000 / (24000 / r) : Nat) : Int) ∧
      r ≤ 24000 / (24000 / r) ∧
      ∀ p : Nat, 0 < p → r ≤ 24000 / p → 24000 / (24000 / r) ≤ 24000 / p) := by
  refine ⟨?_, ?_, ?_⟩
  · intro h
    simp [servoRateRoundTrip, ms_8ch_servo_set_rate, ms_8ch_servo_get_rate, h]
  · intro h
    have h2 : ¬ 24000 ≤ r := by omega
    simp [servoRateRoundTrip, ms_8ch_servo_set_rate, ms_8ch_servo_get_rate, h, h2]
  · intro h94 h24
    have hnle : ¬ 24000 ≤ r := by omega
    have hnlt : ¬ r < 94 := by omega
    have hr0 : 0 < r := by omega
    have hset : ms_8ch_servo_set_rate r = 24000 / r := by
      simp [ms_8ch_servo_set_rate, hnle, hnlt]
    have hp0 : 0 < 24000 / r := Nat.div_pos (by omega) hr0
    have hcast0 : ¬ ((24000 / r : Nat) : Int) < 0 :=
      not_lt.mpr (Int.natCast_nonneg _)
    have hcastne : ((24000 / r : Nat) : Int) ≠ 0 :=
      Int.natCast_ne_zero.mpr (Nat.pos_iff_ne_zero.mp hp0)
    have hrt : servoRateRoundTrip r = ((24000 / (24000 / r) : Nat) : Int) := by
      unfold servoRateRoundTrip
      rw [hset]
      unfold ms_8ch_servo_get_rate
      rw [if_neg hcast0, if_neg hcastne]
      exact_mod_cast rfl
    refine ⟨hset, hrt, ?_, ?_⟩
    · refine (Nat.le_div_iff_mul_le hp0).mpr ?_
      rw [mul_comm]
      exact Nat.div_mul_le_self 24000 r
    · intro p hp hrp
      have h3 : p * r ≤ 24000 := by
        rw [mul_comm]
        exact (Nat.le_div_iff_mul_le hp).mp hrp
      have hple : p ≤ 24000 / r := (Nat.le_div_iff_mul_le hr0).mpr h3
      exact Nat.div_le_div_left hple hp

/-- Witness for `ms_8ch_servo_rate_round_trip_spec` at the requested rates
30000 (clamped high), 50 (clamped low) and 100 (in range, checked against
the achievable rate of period 200). -/
theorem ms_8ch_servo_rate_round_trip_spec_witness :
    servoRateRoundTrip 30000 = 24000 ∧
    servoRateRoundTrip 50 = 0 ∧
    ms_8ch_servo_set_rate 100 = 24000 / 100 ∧
    100 ≤ 24000 / (24000 / 100) ∧
    24000 / (24000 / 100) ≤ 24000 / 200 :=
  ⟨(ms_8ch_servo_rate_round_trip_spec 30000).1 (by decide),
   (ms_8ch_servo_rate_round_trip_spec 50).2.1 (by decide),
   ((ms_8ch_servo_rate_round_trip_spec 100).2.2 (by decide) (by decide)).1,
   ((ms_8ch_servo_rate_round_trip_spec 100).2.2 (by decide) (by decide)).2.2.1,
   ((ms_8ch_servo_rate_round_trip_spec 100).2.2 (by decide) (by decide)).2.2.2
     200 (by decide) (by decide)⟩

/-- Update applied by `ms_imu_send_cmd_post_cb` to the gyro mode descriptor
`&sensor->sensor.mode_info[4]`, switching on the received command value:
case 1 sets (raw_max, si_max) := (10000, 875); case 2 sets (1000, 175);
cases 4 and 5 (fallthrough) set (1000, 700); every other command leaves the
descriptor untouched. -/
def msImuGyroUpdate (m : ModeInfo) (command : Nat) : ModeInfo :=
  if command = 1 then { m with rawMax := 10000, siMax := 875 }
  else if command = 2 then { m with rawMax := 1000, siMax := 175 }
  else if command = 4 ∨ command = 5 then { m with rawMax := 1000, siMax := 700 }
  else m

/-- Embedding of `ms_imu_send_cmd_post_cb`: the sensor state is the array of
mode descriptors; the callback rewrites entry 4 (the GYRO mode) through
`msImuGyroUpdate` and touches nothing else. -/
def ms_imu_send_cmd_post_cb (modeInfo : List ModeInfo) (command : Nat) :
    List ModeInfo :=
  match modeInfo[4]? with
  | some g => modeInfo.set 4 (msImuGyroUpdate g command)
  | none => modeInfo

/-- Initial mode descriptors of the MS_ABSOLUTE_IMU entry of
`nxt_i2c_sensor_defs` (fields not given in the C initializer are
zero-initialised; the raw sample buffers start zero-filled/empty). -/
def msImuModeInfoInit : List ModeInfo := [
  { name := "TILT", dataSets := 3, dataType := .u8, units := "deg",
    decimals := 0, rawMin := 0, rawMax := 0, siMin := 0, siMax := 0,
    rawData := [] },
  { name := "ACCEL", dataSets := 3, dataType := .s16, units := "g",
    decimals := 3, rawMin := 0, rawMax := 0, siMin := 0, siMax := 0,
    rawData := [] },
  { name := "COMPASS", dataSets := 1, dataType := .u16, units := "deg",
    decimals := 0, rawMin := 0, rawMax := 0, siMin := 0, siMax := 0,
    rawData := [] },
  { name := "MAG", dataSets := 3, dataType := .s16, units := "",
    decimals := 0, rawMin := 0, rawMax := 0, siMin := 0, siMax := 0,
    rawData := [] },
  { name := "GYRO", dataSets := 3, dataType := .s16, units := "d/s",
    decimals := 1, rawMin := 0, rawMax := 10000, siMin := 0, siMax := 875,
    rawData := [] },
  { name := "ALL", dataSets := 23, dataType := .u8, units := "",
    decimals := 0, rawMin := 0, rawMax := 0, siMin := 0, siMax := 0,
    rawData := [] }]

/-- The (raw_max, si_max) pair of the gyro mode descriptor (index 4). -/
def gyroFullScalePair (modeInfo : List ModeInfo) : Option (Int × Int) :=
  modeInfo[4]?.map fun g => (g.rawMax, g.siMax)

/-- C1 is violated by the code: `ms_imu_send_cmd_post_cb` switches on
command values 1, 2, 4, 5, although the sensor's cmd_info table places
ACCEL-2G..ACCEL-16G at command indices 2, 3, 4, 5 (and its own case
comments name those ranges).  Concretely: sending ACCEL-4G (command 3)
leaves the gyro (raw_max, si_max) pair at its initial (10000, 875) instead
of installing the 4G pair (1000, 175); sending ACCEL-2G (command 2)
installs (1000, 175), the pair the code's comments designate for 4G; and
sending END-COMP-CAL (command 1), which is not a range command, rewrites
the pair from (1000, 175) back to (10000, 875). -/
theorem ms_imu_fullscale_cmd_off_by_one :
    gyroFullScalePair (ms_imu_send_cmd_post_cb msImuModeInfoInit 3) =
      some (10000, 875) ∧
    gyroFullScalePair (ms_imu_send_cmd_post_cb msImuModeInfoInit 2) =
      some (1000, 175) ∧
    gyroFullScalePair
      (ms_imu_send_cmd_post_cb (ms_imu_send_cmd_post_cb msImuModeInfoInit 2) 1) =
      some (10000, 875) := by
  refine ⟨rfl, rfl, rfl⟩

/-- C9: for every command value and every sensor state,
`ms_imu_send_cmd_post_cb` leaves every mode descriptor other than index 4
unchanged, and changes at most the raw_max and si_max fields of the gyro
descriptor at index 4 (name, data_sets, data_type, units, decimals,
raw_min, si_min and the raw buffer are all preserved). -/
theorem ms_imu_send_cmd_post_cb_frame (s : List ModeInfo) (c : Nat) :
    (∀ i, i ≠ 4 → (ms_imu_send_cmd_post_cb s c)[i]? = s[i]?) ∧
    (∀ m : ModeInfo,
      (msImuGyroUpdate m c).name = m.name ∧
      (msImuGyroUpdate m c).dataSets = m.dataSets ∧
      (msImuGyroUpdate m c).dataType = m.dataType ∧
      (msImuGyroUpdate m c).units = m.units ∧
      (msImuGyroUpdate m c).decimals = m.decimals ∧
      (msImuGyroUpdate m c).rawMin = m.rawMin ∧
      (msImuGyroUpdate m c).siMin = m.siMin ∧
      (msImuGyroUpdate m c).rawData = m.rawData) ∧
    (∀ g : ModeInfo, s[4]? = some g →
      (ms_imu_send_cmd_post_cb s c)[4]? = some (msImuGyroUpdate g c)) := by
  refine ⟨?_, ?_, ?_⟩
  · intro i hi
    unfold ms_imu_send_cmd_post_cb
    cases h : s[4]? with
    | none => rfl
    | some g => exact List.getElem?_set_ne (by omega)
  · intro m
    unfold msImuGyroUpdate
    split
    · exact ⟨rfl, rfl, rfl, rfl, rfl, rfl, rfl, rfl⟩
    · split
      · exact ⟨rfl, rfl, rfl, rfl, rfl, rfl, rfl, rfl⟩
      · split
        · exact ⟨rfl, rfl, rfl, rfl, rfl, rfl, rfl, rfl⟩
        · exact ⟨rfl, rfl, rfl, rfl, rfl, rfl, rfl, rfl⟩
  · intro g hg
    unfold ms_imu_send_cmd_post_cb
    rw [hg]
    have hlen : 4 < s.length := by
      by_contra hlen
      rw [List.getElem?_eq_none (by omega)] at hg
      exact Option.noConfusion hg
    rw [List.getElem?_set_self (by omega)]

/-- Witness for `ms_imu_send_cmd_post_cb_frame` on the initial Absolute-IMU
state with command 2. -/
theorem ms_imu_send_cmd_post_cb_frame_witness :
    (ms_imu_send_cmd_post_cb msImuModeInfoInit 2)[0]? = msImuModeInfoInit[0]? ∧
    (msImuGyroUpdate
      { name := "GYRO", dataSets := 3, dataType := .s16, units := "d/s",
        decimals := 1, rawMin := 0, rawMax := 10000, siMin := 0, siMax := 875,
        rawData := [] } 2).units = "d/s" :=
  ⟨(ms_imu_send_cmd_post_cb_frame msImuModeInfoInit 2).1 0 (by omega),
   ((ms_imu_send_cmd_post_cb_frame msImuModeInfoInit 2).2.1 _).2.2.2.1⟩

/- ### Microinfinity CruizCore XG1300L (nxt_i2c_sensor_defs.c) -/

/-- Modelled from the spec: the shared framework's
`lego_sensor_default_scale` — lego_sensor_class.c is not part of these
sources, only its caller `mi_xg1300l_scale` is.  Spec section 4.1: maps a
raw sample in [raw_min, raw_max] to SI units in [si_min, si_max] by
proportional interpolation (a degenerate range is modelled as the identity
on the raw value).  The result pair is (scaled value, return code 0). -/
def lego_sensor_default_scale (mi : ModeInfo) (index : Nat) : Int × Int :=
  let raw := rawDataValue mi index
  if mi.rawMax = mi.rawMin then (raw, 0)
  else (mi.siMin + (raw - mi.rawMin) * (mi.siMax - mi.siMin) /
          (mi.rawMax - mi.rawMin), 0)

/-- Embedding of `mi_xg1300l_scale`.  `mode` is the currently selected mode
(`data->sensor.mode`), `scalingFactor` the `u8` pointed to by
`data->callback_data`.  In the combined mode 3 ("ALL") the first two values
are not scaled: `if (data->sensor.mode == 3 && index < 2) return
lego_sensor_default_scale(mode_info, index, value);` — otherwise
`*value = raw_as_s16[index] * *scaling_factor; return 0;`. -/
def mi_xg1300l_scale (mode : Nat) (scalingFactor : Nat) (mi : ModeInfo)
    (index : Nat) : Int × Int :=
  if mode = 3 ∧ index < 2 then lego_sensor_default_scale mi index
  else (s16At mi.rawData index * (scalingFactor : Int), 0)

/-- Embedding of `mi_xg1300l_send_cmd_post_cb`: commands 0 ("RESET") and 1
("ACCEL-2G") set the stored scaling factor to 1, command 2 ("ACCEL-4G") to
2, command 3 ("ACCEL-8G") to 4; any other command value leaves it. -/
def mi_xg1300l_send_cmd_post_cb (scalingFactor : Nat) (command : Nat) : Nat :=
  if command = 0 ∨ command = 1 then 1
  else if command = 2 then 2
  else if command = 3 then 4
  else scalingFactor

/-- C4: for the XG1300L, RESET and ACCEL-2G (command indices 0 and 1) set
the stored scaling factor to 1, ACCEL-4G (index 2) sets it to 2, ACCEL-8G
(index 3) sets it to 4; and on every non-bypass mode/index combination the
custom scale function returns the signed 16-bit raw sample at that index
multiplied by the current scaling factor (with return code 0). -/
theorem mi_xg1300l_scaling_factor_spec :
    (∀ f : Nat,
      mi_xg1300l_send_cmd_post_cb f 0 = 1 ∧
      mi_xg1300l_send_cmd_post_cb f 1 = 1 ∧
      mi_xg1300l_send_cmd_post_cb f 2 = 2 ∧
      mi_xg1300l_send_cmd_post_cb f 3 = 4) ∧
    (∀ (mode scalingFactor : Nat) (mi : ModeInfo) (index : Nat),
      ¬(mode = 3 ∧ index < 2) →
      mi_xg1300l_scale mode scalingFactor mi index =
        (s16At mi.rawData index * (scalingFactor : Int), 0)) := by
  constructor
  · intro f
    exact ⟨rfl, rfl, rfl, rfl⟩
  · intro mode scalingFactor mi index h
    simp [mi_xg1300l_scale, h]

/-- Witness for `mi_xg1300l_scaling_factor_spec`: the command table sets the
factors 1, 1, 2, 4 from factor 7, and in mode 2 (ACCEL) at index 0 a raw
buffer holding the little-endian s16 -2 with factor 4 scales to -8. -/
theorem mi_xg1300l_scaling_factor_spec_witness :
    (mi_xg1300l_send_cmd_post_cb 7 0 = 1 ∧
     mi_xg1300l_send_cmd_post_cb 7 1 = 1 ∧
     mi_xg1300l_send_cmd_post_cb 7 2 = 2 ∧
     mi_xg1300l_send_cmd_post_cb 7 3 = 4) ∧
    mi_xg1300l_scale 2 4
      { name := "ACCEL", dataSets := 3, dataType := .s16, units := "g",
        decimals := 3, rawMin := 0, rawMax := 0, siMin := 0, siMax := 0,
        rawData := [(0xFE : Fin 256), (0xFF : Fin 256)] } 0 = (-8, 0) :=
  ⟨mi_xg1300l_scaling_factor_spec.1 7,
   (mi_xg1300l_scaling_factor_spec.2 2 4 _ 0 (by omega)).trans (by decide)⟩

/-- C5: in the XG1300L combined "ALL" mode (mode index 3) the bypass channel
indices 0 and 1 return the default-linear-scaled value — the result of
`lego_sensor_default_scale` — even though the custom scale function is
installed for that mode, while every other mode/index combination gets the
custom multiplicative scaling. -/
theorem mi_xg1300l_all_mode_bypass_spec :
    (∀ (scalingFactor : Nat) (mi : ModeInfo) (index : Nat), index < 2 →
      mi_xg1300l_scale 3 scalingFactor mi index =
        lego_sensor_default_scale mi index) ∧
    (∀ (mode scalingFactor : Nat) (mi : ModeInfo) (index : Nat),
      ¬(mode = 3 ∧ index < 2) →
      mi_xg1300l_scale mode scalingFactor mi index =
        (s16At mi.rawData index * (scalingFactor : Int), 0)) := by
  constructor
  · intro scalingFactor mi index h
    simp [mi_xg1300l_scale, h]
  · intro mode scalingFactor mi index h
    simp [mi_xg1300l_scale, h]

/-- Witness for `mi_xg1300l_all_mode_bypass_spec` on the XG1300L "ALL" mode
descriptor (data type s16, no declared raw range) with a buffer whose first
s16 is 100: index 0 bypasses to the default scaler, index 2 is multiplied
by the factor 2. -/
theorem mi_xg1300l_all_mode_bypass_spec_witness :
    mi_xg1300l_scale 3 2
      { name := "ALL", dataSets := 5, dataType := .s16, units := "",
        decimals := 0, rawMin := 0, rawMax := 0, siMin := 0, siMax := 0,
        rawData := [(100 : Fin 256), (0 : Fin 256)] } 0 =
      lego_sensor_default_scale
        { name := "ALL", dataSets := 5, dataType := .s16, units := "",
          decimals := 0, rawMin := 0, rawMax := 0, siMin := 0, siMax := 0,
          rawData := [(100 : Fin 256), (0 : Fin 256)] } 0 ∧
    mi_xg1300l_scale 3 2
      { name := "ALL", dataSets := 5, dataType := .s16, units := "",
        decimals := 0, rawMin := 0, rawMax := 0, siMin := 0, siMax := 0,
        rawData := [(100 : Fin 256), (0 : Fin 256)] } 2 = (0, 0) :=
  ⟨mi_xg1300l_all_mode_bypass_spec.1 2 _ 0 (by omega),
   (mi_xg1300l_all_mode_bypass_spec.2 3 2 _ 2 (by omega)).trans (by decide)⟩

/- ### EV3 analog sensor drivers -/

/-- Externally visible device/port operation performed by a set-mode call. -/
inductive DeviceOp where
  | setPin5Gpio (state : Nat)
  | registerAnalogCb (customCb : Bool)
  | setRawDataPtr (mode : Nat)
  deriving DecidableEq, Repr

/-- Static per-driver data of the legacy (legoev3/msensor-class) analog
sensor driver that its set-mode path consults: the declared number of
modes, and per mode the pin-5 GPIO state and whether a custom analog
callback is declared (`struct ev3_analog_sensor_info`). -/
structure AnalogSensorInfo where
  numModes : Nat
  pin5State : Nat → Nat
  hasAnalogCb : Nat → Bool

/-- Embedding of the legacy `ev3_analog_sensor_set_mode`
(ev3_analog_sensor.c, msensor-class version): rejects `mode >=
info->num_modes` with -EINVAL before touching the port, otherwise sets the
pin-5 GPIO, registers the analog callback (the mode's own or the generic
one) and stores the new mode.  The result is (return code, device
operations performed in order, resulting current mode). -/
def ev3_analog_sensor_set_mode_legacy (info : AnalogSensorInfo)
    (curMode : Nat) (mode : Nat) : Int × List DeviceOp × Nat :=
  if info.numModes ≤ mode then (-EINVAL, [], curMode)
  else (0, [DeviceOp.setPin5Gpio (info.pin5State mode),
            DeviceOp.registerAnalogCb (info.hasAnalogCb mode)], mode)

/-- Embedding of the current `ev3_analog_sensor_set_mode`
(ev3_analog_sensor.c, lego-sensor-class version): unconditionally installs
the mode's raw-data pointer on the port and then returns -EINVAL — for
every requested mode, with no bounds check.  The result is (return code,
device operations performed). -/
def ev3_analog_sensor_set_mode (mode : Nat) : Int × List DeviceOp :=
  (-EINVAL, [DeviceOp.setRawDataPtr mode])

/-- C6 is violated by the lego-sensor-class version of the driver.  The
legacy msensor-class version behaves as claimed: an out-of-range mode is
rejected with -EINVAL before any device access (no device operations are
performed and the mode is unchanged), and an in-range mode is accepted
with return code 0.  The current version, however, returns -EINVAL for
every requested mode — including valid ones — and does so only after
installing the mode's raw-data pointer on the port; at the concrete valid
input mode 0 it yields (-EINVAL, [setRawDataPtr 0]). -/
theorem ev3_analog_sensor_set_mode_einval_bug :
    (∀ (info : AnalogSensorInfo) (cur mode : Nat), info.numModes ≤ mode →
      ev3_analog_sensor_set_mode_legacy info cur mode = (-EINVAL, [], cur)) ∧
    (∀ (info : AnalogSensorInfo) (cur mode : Nat), mode < info.numModes →
      (ev3_analog_sensor_set_mode_legacy info cur mode).1 = 0) ∧
    ev3_analog_sensor_set_mode 0 = (-EINVAL, [DeviceOp.setRawDataPtr 0]) := by
  refine ⟨?_, ?_, rfl⟩
  · intro info cur mode h
    simp [ev3_analog_sensor_set_mode_legacy, h]
  · intro info cur mode h
    simp [ev3_analog_sensor_set_mode_legacy, Nat.not_le.mpr h]

/-- Witness for `ev3_analog_sensor_set_mode_einval_bug` on a two-mode
legacy sensor: mode 5 is rejected with no device operation, mode 1 is
accepted. -/
theorem ev3_analog_sensor_set_mode_einval_bug_witness :
    ev3_analog_sensor_set_mode_legacy
      { numModes := 2, pin5State := fun _ => 0, hasAnalogCb := fun _ => false }
      0 5 = (-EINVAL, [], 0) ∧
    (ev3_analog_sensor_set_mode_legacy
      { numModes := 2, pin5State := fun _ => 0, hasAnalogCb := fun _ => false }
      0 1).1 = 0 :=
  ⟨ev3_analog_sensor_set_mode_einval_bug.1 _ 0 5 (by decide),
   ev3_analog_sensor_set_mode_einval_bug.2.1 _ 0 1 (by decide)⟩
